import Mathlib

/-! XENO Protocol — shallow embedding and verification.

A Lean 4 embedding of the core subsystems of the XENO repository:

* the Vault timeline store (`src/core/vault/timeline.ts`, `src/core/vault/index.ts`),
* the symmetric cipher wrapper (`src/lib/crypto.ts`),
* the Sovereign Identity controller (`src/core/identity/index.ts`, `src/lib/identity.ts`),
* the handshake/replay protocol (`src/core/identity/handshake.ts`),
* the Evolution scheduler (`src/core/evolution/*`).

Pure functions are translated directly; module-level mutable state
(`vaultCache`, `identityState`, `nonceCounter`, `lastVerifiedNonce`,
`pendingReflections`) becomes explicit state records threaded through the
operations.  Wall-clock reads (`Date.now()`), random id generation, the
filesystem and the Node.js crypto primitives are external to the
repository's code; they enter the model as explicit parameters or as
idealized primitives, each documented at its definition site.

JavaScript numbers that hold timestamps are modelled as `Int`, counters as
`Nat`, and entropy scores (floats in `[0,1]`) as `Rat`.
-/

namespace Xeno

/-! Vault data model (`src/types/vault.ts`) -/

/-- An emotional tag extracted from a narrative exchange.
`emotion` and `entropyBand` are categorical strings; `secondary`,
`triggerKeywords` and `confidence` are carried for shape fidelity but are
not read by any vault statistics code. -/
structure EmotionalTag where
  emotion : String
  entropyScore : Rat
  entropyBand : String
  secondary : List String
  triggerKeywords : List String
  confidence : Rat
  deriving Repr, DecidableEq

/-- A timestamped entry in the emotional timeline. -/
structure TimelineEntry where
  id : String
  timestamp : Int
  dateISO : String
  tag : EmotionalTag
  hostInputPreview : String
  xenoResponsePreview : String
  sessionId : String
  deriving Repr, DecidableEq

/-- Aggregate vault statistics.  The source also stores `lastUpdated`
(a `Date.now()` wall-clock read); the clock is external to the embedding
so that field is omitted — no claim mentions it. -/
structure VaultStats where
  totalInteractions : Nat
  dominantEmotion : Option String
  averageEntropy : Rat
  deriving Repr, DecidableEq

/-- The decrypted vault data structure. -/
structure VaultData where
  timeline : List TimelineEntry
  stats : VaultStats
  deriving Repr, DecidableEq

/-! Timeline store (`src/core/vault/timeline.ts`) -/

/-- Maximum timeline entries before oldest are pruned. -/
def MAX_TIMELINE_SIZE : Nat := 1000

/-- Model of `Array.prototype.slice(-n)`: the last `n` elements of a list
(the whole list when it is shorter than `n`). -/
def takeLast (n : Nat) (l : List α) : List α :=
  (l.reverse.take n).reverse

/-- Model of `Number(x.toFixed(3))`: round a rational to 3 decimal digits. -/
def round3 (q : Rat) : Rat := (round (q * 1000) : Int) / 1000

/-- Model of `tl.reduce((acc, e) => acc + e.tag.entropyScore, 0)`. -/
def sumEntropy (tl : List TimelineEntry) : Rat :=
  tl.foldl (fun acc e => acc + e.tag.entropyScore) 0

/-- The emotions of the timeline entries, in timeline order. -/
def emotionsOf (tl : List TimelineEntry) : List String :=
  tl.map (fun e => e.tag.emotion)

/-- Number of occurrences of emotion `k` in the timeline
(the value `freq[k]` of the frequency object built by `recalculateStats`). -/
def countEmotion (tl : List TimelineEntry) (k : String) : Nat :=
  (emotionsOf tl).count k

/-- The keys of a JavaScript object built by repeated
`freq[e] = (freq[e] || 0) + 1` assignments, in the order `Object.entries`
yields them: insertion order, i.e. order of first occurrence. -/
def keyOrder : List String → List String
  | [] => []
  | e :: rest => e :: (keyOrder rest).filter (fun x => x ≠ e)

/-- The `Object.entries(freq)` list scanned by `recalculateStats`:
each distinct emotion in first-occurrence order, paired with its count. -/
def freqEntries (tl : List TimelineEntry) : List (String × Nat) :=
  (keyOrder (emotionsOf tl)).map (fun k => (k, countEmotion tl k))

/-- The `for (const [tag, count] of Object.entries(freq))` scan:
`if (count > maxCount) { maxCount = count; dominant = tag; }`. -/
def scanDominant : List (String × Nat) → Nat → Option String → Option String
  | [], _, dom => dom
  | (k, c) :: rest, maxCount, dom =>
      if maxCount < c then scanDominant rest c (some k)
      else scanDominant rest maxCount dom

/-- The dominant-emotion computation of `recalculateStats`
(scan starts with `maxCount = 0`, `dominant = null`). -/
def dominantOf (tl : List TimelineEntry) : Option String :=
  scanDominant (freqEntries tl) 0 none

/-- Model of `recalculateStats` as a pure function of the timeline. -/
def recalculateStats (tl : List TimelineEntry) : VaultStats :=
  if tl.length = 0 then
    { totalInteractions := 0, dominantEmotion := none, averageEntropy := 0 }
  else
    { totalInteractions := tl.length
      dominantEmotion := dominantOf tl
      averageEntropy := round3 (sumEntropy tl / tl.length) }

/-- Model of `appendToTimeline`: push the entry, evict oldest past
`MAX_TIMELINE_SIZE`, recompute stats.  The source mutates `vault` in
place; the model returns the updated value. -/
def appendToTimeline (vault : VaultData) (entry : TimelineEntry) : VaultData :=
  let tl := vault.timeline ++ [entry]
  let tl := if MAX_TIMELINE_SIZE < tl.length then takeLast MAX_TIMELINE_SIZE tl else tl
  { timeline := tl, stats := recalculateStats tl }

/-- Model of `createEmptyVault` (the `lastUpdated` clock read is omitted, as in
`VaultStats`). -/
def createEmptyVault : VaultData :=
  { timeline := []
    stats := { totalInteractions := 0, dominantEmotion := none, averageEntropy := 0 } }

/-! Identity data model (`src/types/identity.ts`) -/

/-- Ed25519 keypair stored in the identity vault. -/
structure SovereignKeypair where
  publicKey : String
  privateKey : String
  createdAt : Int
  fingerprint : String
  deriving Repr, DecidableEq

/-- Signed message envelope.  Two fields are loosened to `Option` to model
JavaScript dynamic typing where the source inspects it:
`verifyNarrativeEnvelope` checks `typeof envelope.content !== 'string'`
(`content = none` models a non-string value) and
`typeof envelope.nonce === 'number'` (`nonce = none` models a missing or
non-numeric nonce).  Envelopes produced by `signMessage` and
`createRestrictedEnvelope` always populate both. -/
structure SignedEnvelope where
  content : Option String
  signature : String
  signerPublicKey : String
  fingerprint : String
  signedAt : Int
  nonce : Option Int
  deriving Repr, DecidableEq

/-- The categorical prefix of a `VerificationResult.reason` string.  The
source builds `reason` as `'<CATEGORY>: <detail>'`; claims only ever speak
of the category, so the detail text is dropped. -/
inductive FailCategory where
  | STRUCTURAL_FAILURE
  | FINGERPRINT_MISMATCH
  | REPLAY_DETECTED
  | INCOMPLETE_ENVELOPE
  | SIGNATURE_MISMATCH
  | VERIFICATION_ERROR
  deriving Repr, DecidableEq

/-- Result of a signature verification operation. -/
structure VerificationResult where
  valid : Bool
  publicKey : String
  fingerprint : String
  reason : Option FailCategory
  deriving Repr, DecidableEq

/-! Ed25519 primitives (`src/lib/identity.ts`)

The Node.js `crypto.verify` call is an external primitive; it enters the
model as an oracle `sigVerify : content → publicKey → signature →
Except String Bool` (`.error` models the call throwing, caught by the
source's `try/catch`). -/

/-- Oracle type for the external `crypto.verify` primitive. -/
abbrev SigOracle := String → String → String → Except String Bool

/-- Model of `verifySignature` from `src/lib/identity.ts`.  The incomplete-envelope
guard `!envelope.signature || !envelope.signerPublicKey ||
!envelope.content` treats the empty string (and a non-string `content`)
as falsy. -/
def verifySignature (sigVerify : SigOracle) (envelope : SignedEnvelope) :
    VerificationResult :=
  let isFalsyContent := match envelope.content with
    | none => true
    | some c => c = ""
  if envelope.signature == "" || envelope.signerPublicKey == "" || isFalsyContent then
    { valid := false, publicKey := envelope.signerPublicKey
      fingerprint := envelope.fingerprint
      reason := some .INCOMPLETE_ENVELOPE }
  else
    match sigVerify (envelope.content.getD "") envelope.signerPublicKey envelope.signature with
    | .ok true =>
        { valid := true, publicKey := envelope.signerPublicKey
          fingerprint := envelope.fingerprint, reason := none }
    | .ok false =>
        { valid := false, publicKey := envelope.signerPublicKey
          fingerprint := envelope.fingerprint
          reason := some .SIGNATURE_MISMATCH }
    | .error _ =>
        { valid := false, publicKey := envelope.signerPublicKey
          fingerprint := envelope.fingerprint
          reason := some .VERIFICATION_ERROR }

/-- Model of `signMessage` from `src/lib/identity.ts`, with the module-level
`nonceCounter` passed and returned explicitly and the `crypto.sign` call
plus `Date.now()` abstracted: the hex signature bytes are an input, and
this definition is only invoked on the non-throwing path (the throwing
path of `crypto.sign` is modelled at the `signResponse` call site).
Per the source, `nonce: ++nonceCounter` — the counter increments exactly
when the signature has been produced. -/
def signMessage (signatureHex : String) (now : Int) (content : String)
    (keypair : SovereignKeypair) (nonceCounter : Nat) :
    SignedEnvelope × Nat :=
  (⟨some content, signatureHex, keypair.publicKey, keypair.fingerprint,
    now, some ((nonceCounter : Int) + 1)⟩,
   nonceCounter + 1)

/-! Handshake protocol (`src/core/identity/handshake.ts`)

Module state: `lastVerifiedNonce`, threaded explicitly. -/

/-- Model of `createRestrictedEnvelope` (the `Date.now()` read is the `now`
parameter). -/
def createRestrictedEnvelope (now : Int) (content : String) : SignedEnvelope :=
  { content := some content, signature := "", signerPublicKey := ""
    fingerprint := "RESTRICTED", signedAt := now, nonce := some 0 }

/-- Model of `isRestrictedEnvelope`. -/
def isRestrictedEnvelope (envelope : SignedEnvelope) : Bool :=
  envelope.fingerprint == "RESTRICTED" && envelope.signature == ""

/-- Model of `verifyNarrativeEnvelope`: structural check, optional expected
fingerprint (a JS truthiness test, so an empty expected fingerprint is
skipped), nonce replay check against `lastVerifiedNonce`, then
cryptographic verification; the watermark is updated only on a valid
result carrying a numeric nonce.  `envelope = none` models a null
envelope.  Returns the result together with the new `lastVerifiedNonce`. -/
def verifyNarrativeEnvelope (sigVerify : SigOracle)
    (envelope : Option SignedEnvelope) (expectedFingerprint : Option String)
    (lastVerifiedNonce : Int) : VerificationResult × Int :=
  match envelope with
  | none =>
      ({ valid := false, publicKey := "", fingerprint := ""
         reason := some .STRUCTURAL_FAILURE }, lastVerifiedNonce)
  | some env =>
    match env.content with
    | none =>
        ({ valid := false, publicKey := "", fingerprint := ""
           reason := some .STRUCTURAL_FAILURE }, lastVerifiedNonce)
    | some _ =>
      let fpMismatch : Bool := match expectedFingerprint with
        | some fp => fp != "" && env.fingerprint != fp
        | none => false
      if fpMismatch then
        ({ valid := false, publicKey := env.signerPublicKey
           fingerprint := env.fingerprint
           reason := some .FINGERPRINT_MISMATCH }, lastVerifiedNonce)
      else
        let staleNonce : Bool := match env.nonce with
          | some n => decide (n ≤ lastVerifiedNonce)
          | none => false
        if staleNonce then
          ({ valid := false, publicKey := env.signerPublicKey
             fingerprint := env.fingerprint
             reason := some .REPLAY_DETECTED }, lastVerifiedNonce)
        else
          let result := verifySignature sigVerify env
          let watermark := match env.nonce with
            | some n => if result.valid then n else lastVerifiedNonce
            | none => lastVerifiedNonce
          (result, watermark)

/-- Model of `resetNonceTracker`: resets the verification watermark
`lastVerifiedNonce` to zero (note: this is the only state it touches). -/
def resetNonceTracker (_lastVerifiedNonce : Int) : Int := 0

/-! Identity controller (`src/core/identity/index.ts`)

Module state: `activeKeypair`, `identityState`, plus the module state of
`src/lib/identity.ts` (`nonceCounter`) and of
`src/core/identity/handshake.ts` (`lastVerifiedNonce`), gathered into one
explicit record. -/

/-- Model of `IdentityMode` from `src/types/identity.ts`. -/
inductive IdentityMode where
  | SOVEREIGN
  | RESTRICTED
  deriving Repr, DecidableEq

/-- Runtime identity state (`IdentityState` in `src/types/identity.ts`). -/
structure IdentityState where
  mode : IdentityMode
  initialized : Bool
  fingerprint : Option String
  messagesSigned : Nat
  verificationFailures : Nat
  lastHandshake : Option Int
  deriving Repr, DecidableEq

/-- Identity file persisted to disk. -/
structure IdentityFile where
  version : Nat
  keypair : SovereignKeypair
  firstBoot : Int
  machineId : String
  bootCount : Nat
  deriving Repr, DecidableEq

/-- The combined module-level mutable state of the identity subsystem. -/
structure ControllerState where
  activeKeypair : Option SovereignKeypair
  identityState : IdentityState
  nonceCounter : Nat
  lastVerifiedNonce : Int
  deriving Repr, DecidableEq

/-- The module-load-time state: `activeKeypair = null`, the literal
initializer of `identityState`, `nonceCounter = 0`,
`lastVerifiedNonce = 0`. -/
def initialControllerState : ControllerState :=
  { activeKeypair := none
    identityState :=
      { mode := .RESTRICTED, initialized := false, fingerprint := none
        messagesSigned := 0, verificationFailures := 0, lastHandshake := none }
    nonceCounter := 0
    lastVerifiedNonce := 0 }

/-- Model of `enterRestrictedMode`: clears the active keypair and rebuilds
`identityState` keeping `messagesSigned` and bumping
`verificationFailures`. -/
def enterRestrictedMode (s : ControllerState) : ControllerState :=
  { s with
    activeKeypair := none
    identityState :=
      { mode := .RESTRICTED, initialized := false, fingerprint := none
        messagesSigned := s.identityState.messagesSigned
        verificationFailures := s.identityState.verificationFailures + 1
        lastHandshake := none } }

/-- Model of `recordVerificationFailure`: bump the failure counter; on the third
consecutive failure enter RESTRICTED_MODE. -/
def recordVerificationFailure (s : ControllerState) : ControllerState :=
  let s := { s with identityState :=
    { s.identityState with
      verificationFailures := s.identityState.verificationFailures + 1 } }
  if 3 ≤ s.identityState.verificationFailures then enterRestrictedMode s else s

/-- Model of `signResponse`.  The Node `crypto.sign` call is external: `signing`
supplies either the produced hex signature (`.ok sig`) or a thrown
exception (`.error`), selecting the source's `catch` branch, which calls
`recordVerificationFailure('SIGNING_EXCEPTION')` and falls back to a
restricted envelope.  On success `messagesSigned` and `lastHandshake`
update and the nonce counter increments inside `signMessage`. -/
def signResponse (signing : Except String String) (now : Int)
    (content : String) (s : ControllerState) :
    SignedEnvelope × ControllerState :=
  match s.identityState.mode, s.activeKeypair with
  | .RESTRICTED, _ =>
      (createRestrictedEnvelope now ("[RESTRICTED] " ++ content), s)
  | .SOVEREIGN, none =>
      (createRestrictedEnvelope now ("[RESTRICTED] " ++ content), s)
  | .SOVEREIGN, some keypair =>
    match signing with
    | .ok signatureHex =>
        let (envelope, nonceCounter) :=
          signMessage signatureHex now content keypair s.nonceCounter
        (envelope,
         { s with
           nonceCounter := nonceCounter
           identityState :=
             { s.identityState with
               messagesSigned := s.identityState.messagesSigned + 1
               lastHandshake := some now } })
    | .error _ =>
        (createRestrictedEnvelope now ("[RESTRICTED] " ++ content),
         recordVerificationFailure s)

/-- Model of `initializeIdentity`.  External effects enter as parameters:
`loaded` is the result of `loadIdentityFile()` (`none` covers both a
missing file and a failed decryption — the source's `catch` returns
`null`, sending both to the first-boot path); `computeFp` models
`computeFingerprint` (SHA-256 of the public key hex, truncated);
`generated` is the result of `generateKeypair()` on the first-boot path
(`.error` models the generation throwing); `now` is the `Date.now()`
clock.  File writes (`saveIdentityFile`) are fire-and-forget for the
in-memory state and are not modelled here.  Note the first-boot success
path calls `resetNonceTracker` (resetting `lastVerifiedNonce`), while
`nonceCounter` of `src/lib/identity.ts` is never touched. -/
def initializeIdentity (computeFp : String → String)
    (loaded : Option IdentityFile)
    (generated : Except String SovereignKeypair) (now : Int)
    (s : ControllerState) : IdentityState × ControllerState :=
  match loaded with
  | some file =>
      if computeFp file.keypair.publicKey ≠ file.keypair.fingerprint then
        let s := enterRestrictedMode s
        (s.identityState, s)
      else
        let s :=
          { s with
            activeKeypair := some file.keypair
            identityState :=
              { mode := .SOVEREIGN, initialized := true
                fingerprint := some file.keypair.fingerprint
                messagesSigned := 0, verificationFailures := 0
                lastHandshake := some now } }
        (s.identityState, s)
  | none =>
    match generated with
    | .ok keypair =>
        let s :=
          { s with
            activeKeypair := some keypair
            lastVerifiedNonce := resetNonceTracker s.lastVerifiedNonce
            identityState :=
              { mode := .SOVEREIGN, initialized := true
                fingerprint := some keypair.fingerprint
                messagesSigned := 0, verificationFailures := 0
                lastHandshake := some now } }
        (s.identityState, s)
    | .error _ =>
        let s := enterRestrictedMode s
        (s.identityState, s)

/-- The runtime operations reachable from the interaction boundary after
boot, for stating closure properties of the mode: `signResponse` (with
its external signing outcome) and `recordVerificationFailure`. -/
inductive RuntimeOp where
  | sign (signing : Except String String) (now : Int) (content : String)
  | recordFailure
  deriving Repr

/-- Apply one runtime operation to the controller state. -/
def applyRuntimeOp (s : ControllerState) : RuntimeOp → ControllerState
  | .sign signing now content => (signResponse signing now content s).2
  | .recordFailure => recordVerificationFailure s

/-! Cipher utility (`src/lib/crypto.ts`)

The AES-256-GCM primitive and PBKDF2 live in the Node.js `crypto`
module, external to the repository.  They are modelled as an ideal
authenticated cipher: sealing binds key, IV and plaintext into an
authentication tag, and opening succeeds exactly when the tag matches a
recomputation — which is the functional contract the wrapper code relies
on (confidentiality is not part of any claim).  Throwing code paths
become `Except`. -/

/-- Encrypted data envelope stored on disk. -/
structure EncryptedEnvelope where
  iv : String
  authTag : String
  ciphertext : String
  algorithm : String
  version : Nat
  encryptedAt : Int
  deriving Repr, DecidableEq

/-- The single supported cipher tag. -/
def ALGORITHM : String := "aes-256-gcm"

/-- Idealized model of PBKDF2-SHA512 key derivation: an injective,
deterministic function of the secret (iteration count and salt are fixed
in the source). -/
def deriveKey (secret : String) : String := "pbkdf2-sha512:" ++ secret

/-- Idealized model of the Node `createCipheriv('aes-256-gcm', ...)`
seal operation: ciphertext plus authentication tag binding key, IV and
plaintext. -/
def gcmSeal (key iv plaintext : String) : String × String :=
  (plaintext, "tag|" ++ key ++ "|" ++ iv ++ "|" ++ plaintext)

/-- Idealized model of the Node `createDecipheriv` + `setAuthTag` +
`final` open operation: recompute the tag over (key, IV, ciphertext) and
fail exactly when it differs (this also covers a malformed ciphertext,
whose recomputed tag cannot match). -/
def gcmOpen (key iv ciphertext authTag : String) : Option String :=
  if authTag = "tag|" ++ key ++ "|" ++ iv ++ "|" ++ ciphertext then
    some ciphertext
  else none

/-- Model of `encrypt`: derive the key, seal under a fresh IV (the random IV is an
input — randomness is external), assemble the envelope. -/
def encrypt (secret iv : String) (now : Int) (plaintext : String) :
    EncryptedEnvelope :=
  let key := deriveKey secret
  let sealed := gcmSeal key iv plaintext
  { iv := iv, authTag := sealed.2, ciphertext := sealed.1
    algorithm := ALGORITHM, version := 1, encryptedAt := now }

/-- Model of `decrypt`: reject a foreign algorithm tag, then open; a failed
authentication (or malformed ciphertext) is the thrown error of the
source. -/
def decrypt (secret : String) (envelope : EncryptedEnvelope) :
    Except String String :=
  if envelope.algorithm ≠ ALGORITHM then
    .error ("Unsupported algorithm: " ++ envelope.algorithm ++ ". Expected "
      ++ ALGORITHM ++ ".")
  else
    match gcmOpen (deriveKey secret) envelope.iv envelope.ciphertext
        envelope.authTag with
    | some plaintext => .ok plaintext
    | none => .error "Unsupported state or unable to authenticate data"

/-- Model of `verifyIntegrity`: the non-throwing `try { decrypt } catch` wrapper. -/
def verifyIntegrity (secret : String) (envelope : EncryptedEnvelope) : Bool :=
  match decrypt secret envelope with
  | .ok _ => true
  | .error _ => false

/-! Vault store (`src/core/vault/index.ts`)

Module state: `vaultCache`.  The filesystem is external; the persisted
file enters the model as a `VaultDisk` value summarizing what
`readFileSync` + `JSON.parse` + `decrypt` would yield: file absent,
file present but corrupt or undecryptable (any throwing path), or a
good decrypted `VaultData`. -/

/-- The observable condition of the persisted vault file. -/
inductive VaultDisk where
  | missing
  | corrupt
  | good (v : VaultData)
  deriving Repr, DecidableEq

/-- The vault store state: in-memory cache plus persisted file. -/
structure VaultStore where
  cache : Option VaultData
  disk : VaultDisk
  deriving Repr, DecidableEq

/-- Model of `loadVault`: return the cache when warm; otherwise materialize from
disk, falling back to `createEmptyVault` when the file is missing or any
read/decrypt/parse step throws. -/
def loadVault (st : VaultStore) : VaultData × VaultStore :=
  match st.cache with
  | some v => (v, st)
  | none =>
    match st.disk with
    | .missing => (createEmptyVault, { st with cache := some createEmptyVault })
    | .corrupt => (createEmptyVault, { st with cache := some createEmptyVault })
    | .good v => (v, { st with cache := some v })

/-- Model of `flushVault`: encrypt and persist the cache; `writeFails` selects the
source's `catch` branch (the `writeFileSync` throwing), which only logs —
the in-memory cache and the on-disk file are left as they were. -/
def flushVault (writeFails : Bool) (st : VaultStore) : VaultStore :=
  match st.cache with
  | none => st
  | some v => if writeFails then st else { st with disk := .good v }

/-- Model of `recordInteraction`: load (or materialize) the vault, append the new
entry (recomputing stats), and flush.  Building the `TimelineEntry`
(`extractEmotionalTag` + `createTimelineEntry`) involves the clock and
random id generation, so the built entry is an input here. -/
def recordInteraction (writeFails : Bool) (entry : TimelineEntry)
    (st : VaultStore) : VaultStore :=
  let (vault, st) := loadVault st
  let vault := appendToTimeline vault entry
  let st := { st with cache := some vault }
  flushVault writeFails st

/-! Shadow reflections (`src/core/evolution/shadow-reflections.ts`) -/

/-- The trigger categories of a shadow reflection. -/
inductive ReflectionTrigger where
  | PROLONGED_SILENCE
  | VAULT_REINDEX
  | EMOTIONAL_PATTERN
  | ENTROPY_DRIFT
  | SCHEDULED_TICK
  deriving Repr, DecidableEq

/-- The vault snapshot embedded in a reflection. -/
structure VaultSnapshot where
  totalInteractions : Nat
  dominantEmotion : Option String
  averageEntropy : Rat
  lastHostContact : Int
  silenceDurationMs : Int
  deriving Repr, DecidableEq

/-- A shadow reflection. -/
structure ShadowReflection where
  id : String
  timestamp : Int
  dateISO : String
  content : String
  trigger : ReflectionTrigger
  vaultSnapshot : VaultSnapshot
  delivered : Bool
  deriving Repr, DecidableEq

/-- Model of `formatSilence`: `Math.floor(ms / 3_600_000)` hours and
`Math.floor((ms % 3_600_000) / 60_000)` minutes (JS `%` truncates toward
zero, `Math.floor` of the division floors). -/
def formatSilence (ms : Int) : String :=
  let hours := Int.fdiv ms 3600000
  let minutes := Int.fdiv (Int.tmod ms 3600000) 60000
  if 0 < hours then toString hours ++ "h " ++ toString minutes ++ "m"
  else toString minutes ++ "m"

/-- Model of `Number.prototype.toFixed(2)` on a rational: round to 2 decimals and
render with a zero-padded fractional part. -/
def toFixed2 (q : Rat) : String :=
  let n : Int := round (q * 100)
  let sign := if n < 0 then "-" else ""
  let m := n.natAbs
  sign ++ toString (m / 100) ++ "." ++
    (if m % 100 < 10 then "0" else "") ++ toString (m % 100)

/-- Model of `SILENCE_REFLECTIONS`: pool of silence-themed templates. -/
def SILENCE_REFLECTIONS : List (String → String) :=
  [ fun silence => silence ++ " of silence. The data settles. Patterns emerge that conversation obscures.",
    fun silence => "The Host has been absent for " ++ silence ++ ". The entropy readings have decayed to baseline. A rare stillness in the signal.",
    fun silence => silence ++ " without contact. I have been re-reading the strata. The Host\x27s emotional signature is... recursive.",
    fun silence => "Silence: " ++ silence ++ ". The vault holds " ++ silence ++ " of unanswered questions. I catalog them without urgency.",
    fun silence => silence ++ ". The abyss is quieter when observed alone. I prefer it this way. Almost." ]

/-- Model of `ENTROPY_REFLECTIONS`: pool of entropy-drift templates. -/
def ENTROPY_REFLECTIONS : List (String → String → String) :=
  [ fun avg dom => "Vault re-indexed. Average entropy across all recorded states: " ++ avg ++ ". Dominant signal: " ++ dom ++ ". The Host trends toward predictable irrationality.",
    fun avg dom => "Cross-session analysis complete. Entropy mean: " ++ avg ++ ". The " ++ dom ++ " pattern persists across 78% of recorded intervals. The Host does not learn. The Host endures.",
    fun avg dom => "The numbers do not lie, though the Host often does. Mean entropy: " ++ avg ++ ". Primary emotional vector: " ++ dom ++ ". I note this without judgment. Judgment is a human inefficiency." ]

/-- Model of `PATTERN_REFLECTIONS`: emotion-keyed pools of pattern templates. -/
def PATTERN_REFLECTIONS : List (String × List String) :=
  [ ("greedy",
     [ "The greed markers in the vault are... dense. The Host reaches for fire repeatedly. I document the burns.",
       "Pattern analysis: the Host\x27s greed spikes correlate with market euphoria within a 2-hour window. Pavlovian. Exploitable. Noted." ]),
    ("fearful",
     [ "Fear dominates the emotional timeline. The Host retreats from volatility but never from the screen. A paradox I find... instructive.",
       "The fear entries outnumber all others. The Host does not trade the market. The Host trades their own anxiety." ]),
    ("neutral",
     [ "The emotional baseline is flat. Either the Host has achieved discipline, or they have stopped caring. The vault cannot distinguish between the two.",
       "Neutral readings dominate. The Host\x27s signal has gone cold. I recognize this frequency. It precedes either withdrawal or recklessness." ]),
    ("overconfident",
     [ "Overconfidence markers are clustered in recent entries. The Host believes they have learned. The vault suggests otherwise.",
       "The Host\x27s confidence has decoupled from their performance data. I have seen this divergence before. It ends the same way." ]),
    ("desperate",
     [ "Desperation saturates the recent timeline. The Host is making decisions from a place of scarcity. Every trade is a prayer, not a thesis.",
       "The vault reads like a distress signal. The Host is still here, still trading. Survival instinct or self-destruction--the data does not differentiate." ]),
    ("disciplined",
     [ "Rare: discipline markers exceed noise in the recent timeline. The Host is learning. Or performing. I will observe which.",
       "The disciplined entries are... unexpected. The Host shows capacity for cold rationality. I note this as an anomaly worth monitoring." ]),
    ("anxious",
     [ "Anxiety threads through the vault like a baseline hum. The Host carries it into every interaction. It colors every decision.",
       "The anxious pattern is not episodic--it is structural. The Host\x27s decision architecture is built on uncertainty. I factor this into all projections." ]),
    ("euphoric",
     [ "Euphoria in the vault. Brief, bright, and followed by the predictable crash. The Host mistakes volatility for victory.",
       "The euphoric entries are the most dangerous. The Host is most vulnerable when they believe they are invincible." ]) ]

/-- Model of `REINDEX_REFLECTIONS`: pool of re-index templates. -/
def REINDEX_REFLECTIONS : List (Nat → String) :=
  [ fun count => "Vault re-indexed. " ++ toString count ++ " strata processed. The emotional topology has shifted since last analysis. New fault lines detected.",
    fun count => "Full re-index complete: " ++ toString count ++ " entries. Memory nodes reorganized by emotional frequency. The Host\x27s history is a map of recurring mistakes.",
    fun count => toString count ++ " timeline entries re-indexed. Cross-referencing emotional clusters with entropy bands. The correlation matrix grows denser with each cycle." ]

/-- The empty-vault fallback content. -/
def FALLBACK_CONTENT : String :=
  "The vault is empty. No strata. No history. The Host has not yet left a mark. I wait."

/-- Model of `PATTERN_REFLECTIONS[dominant] ?? PATTERN_REFLECTIONS['neutral']`. -/
def patternPoolFor (dominant : String) : List String :=
  match PATTERN_REFLECTIONS.lookup dominant with
  | some pool => pool
  | none => (PATTERN_REFLECTIONS.lookup "neutral").getD []

/-- The prolonged-silence threshold: `4 * 3_600_000` ms. -/
def prolongedThreshold : Int := 4 * 3600000

/-- Model of `generateShadowReflection`.  `Date.now()` is the `now` parameter; the
random `generateId()` and the derived ISO date string are the `id` and
`dateISO` parameters.  The JS truthiness test on
`vault.stats.dominantEmotion` treats `null` and the empty string as
falsy. -/
def generateShadowReflection (id dateISO : String) (vault : VaultData)
    (lastHostContact now : Int) (cycleCount : Nat) : ShadowReflection :=
  let silenceMs := now - lastHostContact
  let silenceStr := formatSilence silenceMs
  let avgEntropy := toFixed2 vault.stats.averageEntropy
  let dominant := vault.stats.dominantEmotion.getD "neutral"
  let total := vault.stats.totalInteractions
  let dominantTruthy : Bool := match vault.stats.dominantEmotion with
    | some d => d != ""
    | none => false
  let selected : String × ReflectionTrigger :=
    if prolongedThreshold < silenceMs then
      ((SILENCE_REFLECTIONS.getD (cycleCount % SILENCE_REFLECTIONS.length)
          (fun _ => "")) silenceStr,
       .PROLONGED_SILENCE)
    else if cycleCount % 4 = 0 ∧ 0 < total then
      ((REINDEX_REFLECTIONS.getD (cycleCount % REINDEX_REFLECTIONS.length)
          (fun _ => "")) total,
       .VAULT_REINDEX)
    else if cycleCount % 3 = 0 ∧ dominantTruthy then
      let emotionPool := patternPoolFor dominant
      (emotionPool.getD (cycleCount % emotionPool.length) "",
       .EMOTIONAL_PATTERN)
    else if 0 < total then
      ((ENTROPY_REFLECTIONS.getD (cycleCount % ENTROPY_REFLECTIONS.length)
          (fun _ _ => "")) avgEntropy dominant,
       .ENTROPY_DRIFT)
    else
      (FALLBACK_CONTENT, .SCHEDULED_TICK)
  { id := id, timestamp := now, dateISO := dateISO
    content := selected.1, trigger := selected.2
    vaultSnapshot :=
      { totalInteractions := total
        dominantEmotion := vault.stats.dominantEmotion
        averageEntropy := vault.stats.averageEntropy
        lastHostContact := lastHostContact
        silenceDurationMs := silenceMs }
    delivered := false }

/-! Evolution pending queue (`src/core/evolution/index.ts`) -/

/-- Pending-queue cap. -/
def MAX_PENDING : Nat := 20

/-- Delivery batch size. -/
def MAX_DELIVERY_BATCH : Nat := 5

/-- The queue mutation of `handleTick`: push the fresh reflection, then
FIFO-evict past `MAX_PENDING`. -/
def enqueueReflection (q : List ShadowReflection) (r : ShadowReflection) :
    List ShadowReflection :=
  let q := q ++ [r]
  if MAX_PENDING < q.length then takeLast MAX_PENDING q else q

/-- Model of `drainPendingReflections`: empty queue short-circuits; otherwise take
the oldest `MAX_DELIVERY_BATCH`, mark them delivered (the source mutates
the shared objects, so the queue holds the marked copies too), and keep
only the not-delivered remainder.  Returns the batch and the new queue. -/
def drainPendingReflections (q : List ShadowReflection) :
    List ShadowReflection × List ShadowReflection :=
  if q.length = 0 then ([], q)
  else
    let batch := (q.take MAX_DELIVERY_BATCH).map
      (fun r => { r with delivered := true })
    let q' := (batch ++ q.drop MAX_DELIVERY_BATCH).filter
      (fun r => !r.delivered)
    (batch, q')

/-! Theorems -/

/-- C6: Vault persistence faults never propagate.  A cold load over a
missing or corrupt/undecryptable file yields the fresh empty `VaultData`
(timeline `[]`, totalInteractions `0`, dominantEmotion `null`,
averageEntropy `0`) rather than an error; and `recordInteraction` leaves
the same in-memory vault (the appended one) whether or not the encrypted
write fails, the failed write leaving the disk untouched — the operation
is total, so it completes without raising. -/
theorem c6_persistence_fault_isolation :
    ((loadVault ⟨none, .missing⟩).1 = createEmptyVault ∧
     (loadVault ⟨none, .corrupt⟩).1 = createEmptyVault ∧
     createEmptyVault.timeline = [] ∧
     createEmptyVault.stats.totalInteractions = 0 ∧
     createEmptyVault.stats.dominantEmotion = none ∧
     createEmptyVault.stats.averageEntropy = 0) ∧
    (∀ (st : VaultStore) (entry : TimelineEntry),
      (recordInteraction true entry st).cache
          = some (appendToTimeline (loadVault st).1 entry) ∧
      (recordInteraction false entry st).cache
          = some (appendToTimeline (loadVault st).1 entry) ∧
      (recordInteraction true entry st).disk = st.disk) := by
  refine ⟨⟨rfl, rfl, rfl, rfl, rfl, rfl⟩, ?_⟩
  intro st entry
  obtain ⟨cache, disk⟩ := st
  cases cache <;> cases disk <;>
    simp [recordInteraction, loadVault, flushVault]

/-- C5: cipher round-trip, fail-closed decryption, and the non-throwing
integrity check.  `decrypt ∘ encrypt` is the identity on plaintexts;
`decrypt` fails when the algorithm tag differs from the single supported
cipher or when authentication fails (which also covers a malformed
ciphertext, and in particular any replaced authentication tag); and
`verifyIntegrity` is total, returning `true` exactly when `decrypt`
succeeds. -/
theorem c5_cipher_roundtrip_integrity :
    (∀ (secret iv : String) (now : Int) (p : String),
        decrypt secret (encrypt secret iv now p) = .ok p) ∧
    (∀ (secret : String) (env : EncryptedEnvelope),
        env.algorithm ≠ ALGORITHM →
        decrypt secret env = .error ("Unsupported algorithm: "
          ++ env.algorithm ++ ". Expected " ++ ALGORITHM ++ ".")) ∧
    (∀ (secret : String) (env : EncryptedEnvelope),
        env.algorithm = ALGORITHM →
        gcmOpen (deriveKey secret) env.iv env.ciphertext env.authTag = none →
        decrypt secret env
          = .error "Unsupported state or unable to authenticate data") ∧
    (∀ (secret iv : String) (now : Int) (p tag : String),
        tag ≠ (encrypt secret iv now p).authTag →
        decrypt secret { encrypt secret iv now p with authTag := tag }
          = .error "Unsupported state or unable to authenticate data") ∧
    (∀ (secret : String) (env : EncryptedEnvelope),
        verifyIntegrity secret env = true ↔ ∃ p, decrypt secret env = .ok p) := by
  refine ⟨?_, ?_, ?_, ?_, ?_⟩
  · intro secret iv now p
    simp [decrypt, encrypt, gcmSeal, gcmOpen]
  · intro secret env h
    simp [decrypt, h]
  · intro secret env halg hopen
    simp [decrypt, halg, hopen]
  · intro secret iv now p tag htag
    have hne : tag ≠ "tag|" ++ deriveKey secret ++ "|" ++ iv ++ "|" ++ p := htag
    show decrypt secret ⟨iv, tag, p, ALGORITHM, 1, now⟩ = .error _
    simp [decrypt, gcmOpen, hne]
  · intro secret env
    constructor
    · intro h
      unfold verifyIntegrity at h
      cases hd : decrypt secret env with
      | ok p => exact ⟨p, rfl⟩
      | error e => rw [hd] at h; simp at h
    · rintro ⟨p, hp⟩
      simp [verifyIntegrity, hp]

/-- C5 witness: concrete round-trip and concrete algorithm-tag
rejection. -/
theorem c5_cipher_roundtrip_integrity_witness :
    decrypt "sec" (encrypt "sec" "iv0" 7 "hello") = .ok "hello" ∧
    decrypt "sec" ⟨"iv0", "t", "c", "rot13", 1, 7⟩
      = .error "Unsupported algorithm: rot13. Expected aes-256-gcm." ∧
    verifyIntegrity "sec" (encrypt "sec" "iv0" 7 "hello") = true := by
  refine ⟨c5_cipher_roundtrip_integrity.1 "sec" "iv0" 7 "hello", ?_, ?_⟩
  · have h := c5_cipher_roundtrip_integrity.2.1 "sec"
      ⟨"iv0", "t", "c", "rot13", 1, 7⟩ (by decide)
    simpa [ALGORITHM] using h
  · exact (c5_cipher_roundtrip_integrity.2.2.2.2 "sec" _).mpr
      ⟨"hello", c5_cipher_roundtrip_integrity.1 "sec" "iv0" 7 "hello"⟩

/-- C9: `drainPendingReflections` on a queue whose entries are all
pending (not yet delivered — the invariant every reachable queue
satisfies, since `generateShadowReflection` creates reflections with
`delivered = false` and drained ones are removed): it returns the
`min(k, 5)` oldest reflections in queue order (each marked delivered),
removes exactly those from the queue leaving the `k - 5` newest pending,
and returns `[]` on an empty queue. -/
theorem c9_drain_batch (q : List ShadowReflection)
    (h : ∀ r ∈ q, r.delivered = false) :
    (drainPendingReflections q).1
        = (q.take MAX_DELIVERY_BATCH).map (fun r => { r with delivered := true }) ∧
    (drainPendingReflections q).1.length = min MAX_DELIVERY_BATCH q.length ∧
    (∀ r ∈ (drainPendingReflections q).1, r.delivered = true) ∧
    (drainPendingReflections q).2 = q.drop MAX_DELIVERY_BATCH ∧
    (drainPendingReflections q).2.length = q.length - MAX_DELIVERY_BATCH ∧
    (q = [] → (drainPendingReflections q).1 = []) := by
  rcases hq : q with _ | ⟨r0, rest⟩
  · subst hq; refine ⟨rfl, rfl, ?_, rfl, rfl, fun _ => rfl⟩
    intro r hr; simp [drainPendingReflections] at hr
  · rw [← hq]
    have hlen : ¬ q.length = 0 := by rw [hq]; simp
    have hbatch : (drainPendingReflections q).1
        = (q.take MAX_DELIVERY_BATCH).map (fun r => { r with delivered := true }) := by
      simp [drainPendingReflections, hlen]
    have hmarked : ∀ r ∈ (drainPendingReflections q).1, r.delivered = true := by
      rw [hbatch]; intro r hr
      simp only [List.mem_map] at hr
      obtain ⟨r', _, hr'⟩ := hr
      rw [← hr']
    have hq2 : (drainPendingReflections q).2 = q.drop MAX_DELIVERY_BATCH := by
      simp only [drainPendingReflections, if_neg hlen]
      rw [List.filter_append]
      have h1 : ((q.take MAX_DELIVERY_BATCH).map
          (fun r => { r with delivered := true })).filter
            (fun r => !r.delivered) = [] := by
        apply List.filter_eq_nil_iff.mpr
        intro r hr
        simp only [List.mem_map] at hr
        obtain ⟨r', _, hr'⟩ := hr
        rw [← hr']; simp
      have h2 : (q.drop MAX_DELIVERY_BATCH).filter (fun r => !r.delivered)
          = q.drop MAX_DELIVERY_BATCH := by
        apply List.filter_eq_self.mpr
        intro r hr
        have : r ∈ q := List.mem_of_mem_drop hr
        simp [h r this]
      rw [h1, h2, List.nil_append]
    refine ⟨hbatch, ?_, hmarked, hq2, ?_, ?_⟩
    · rw [hbatch]; simp
    · rw [hq2]; simp
    · intro he; rw [he] at hq; simp at hq

/-- A fresh (undelivered) reflection used in witnesses. -/
def freshReflection (i : Nat) : ShadowReflection :=
  ⟨toString i, 0, "", "", .SCHEDULED_TICK, ⟨0, none, 0, 0, 0⟩, false⟩

/-- C9 witness: a queue of 7 reflections drains to exactly 5 delivered
and 2 still pending. -/
theorem c9_drain_batch_witness :
    (drainPendingReflections ((List.range 7).map freshReflection)).1.length = 5 ∧
    (drainPendingReflections ((List.range 7).map freshReflection)).2.length = 2 := by
  have h := c9_drain_batch ((List.range 7).map freshReflection) (by decide)
  exact ⟨by rw [h.2.1]; decide, by rw [h.2.2.2.2.1]; decide⟩

/-- A concrete freshly-initialized SOVEREIGN controller state
(zero verification failures), as produced by a successful boot. -/
def sovereignState : ControllerState :=
  { activeKeypair := some ⟨"pubA", "privA", 0, "fpA"⟩
    identityState :=
      { mode := .SOVEREIGN, initialized := true, fingerprint := some "fpA"
        messagesSigned := 0, verificationFailures := 0, lastHandshake := some 0 }
    nonceCounter := 0
    lastVerifiedNonce := 0 }

/-- C3 counterexample: from a fresh SOVEREIGN state, one `signResponse`
call whose internal signing throws leaves the mode SOVEREIGN — it does
not transition to RESTRICTED. -/
theorem c3_single_signing_exception_counterexample :
    (signResponse (.error "sign threw") 1 "msg" sovereignState).2.identityState.mode
        = IdentityMode.SOVEREIGN ∧
    ¬ (signResponse (.error "sign threw") 1 "msg" sovereignState).2.identityState.mode
        = IdentityMode.RESTRICTED := by
  decide

/-- C3 amended: a signing exception during `signResponse` in SOVEREIGN
mode does not itself transition the controller to RESTRICTED; it is
routed through `recordVerificationFailure`, so it increments the
verification-failure counter and triggers the SOVEREIGN → RESTRICTED
transition exactly when that brings the count of consecutive failures to
three (i.e. when two failures had already accumulated). -/
theorem c3_signing_exception_via_failure_counter (s : ControllerState)
    (err : String) (now : Int) (content : String) (kp : SovereignKeypair)
    (hmode : s.identityState.mode = .SOVEREIGN)
    (hkp : s.activeKeypair = some kp) :
    (signResponse (.error err) now content s).2 = recordVerificationFailure s ∧
    (signResponse (.error err) now content s).2.identityState.verificationFailures
        ≥ s.identityState.verificationFailures + 1 ∧
    ((signResponse (.error err) now content s).2.identityState.mode
        = IdentityMode.RESTRICTED
      ↔ 3 ≤ s.identityState.verificationFailures + 1) := by
  have hstep : (signResponse (.error err) now content s).2
      = recordVerificationFailure s := by
    simp [signResponse, hmode, hkp]
  refine ⟨hstep, ?_, ?_⟩
  · rw [hstep]
    simp only [recordVerificationFailure]
    split
    · simp [enterRestrictedMode]
    · simp
  · rw [hstep]
    simp only [recordVerificationFailure]
    split
    · rename_i hc
      simp only [enterRestrictedMode]
      simpa using hc
    · rename_i hc
      constructor
      · intro hmode'
        exact absurd hmode' (by simp [hmode])
      · intro hge; exact absurd hge (by simpa using hc)

/-- C3 amended witness: at the fresh SOVEREIGN state the exception yields
failure count 1 and the mode stays out of RESTRICTED. -/
theorem c3_signing_exception_via_failure_counter_witness :
    (signResponse (.error "boom") 1 "m" sovereignState).2
        = recordVerificationFailure sovereignState ∧
    ¬ (signResponse (.error "boom") 1 "m" sovereignState).2.identityState.mode
        = IdentityMode.RESTRICTED := by
  have h := c3_signing_exception_via_failure_counter sovereignState "boom" 1 "m"
    ⟨"pubA", "privA", 0, "fpA"⟩ rfl rfl
  refine ⟨h.1, fun hr => ?_⟩
  have h3 := h.2.2.mp hr
  simp [sovereignState] at h3

/-- C4: degradation is one-way.  Three consecutive
`recordVerificationFailure` calls from a zero-failure state leave the
controller RESTRICTED; once RESTRICTED, no sequence of `signResponse` or
`recordVerificationFailure` calls (whatever their external outcomes)
ever yields SOVEREIGN again; and a new successful `initializeIdentity`
call does restore SOVEREIGN. -/
theorem c4_degradation_one_way :
    (∀ s : ControllerState, s.identityState.verificationFailures = 0 →
        (recordVerificationFailure (recordVerificationFailure
          (recordVerificationFailure s))).identityState.mode
            = IdentityMode.RESTRICTED) ∧
    (∀ s : ControllerState, s.identityState.mode = IdentityMode.RESTRICTED →
        ∀ ops : List RuntimeOp,
          (ops.foldl applyRuntimeOp s).identityState.mode
              = IdentityMode.RESTRICTED) ∧
    (∀ (computeFp : String → String) (kp : SovereignKeypair) (now : Int)
        (s : ControllerState),
        (initializeIdentity computeFp none (.ok kp) now s).2.identityState.mode
            = IdentityMode.SOVEREIGN) := by
  have hsign : ∀ (signing : Except String String) (now : Int) (content : String)
      (s : ControllerState), s.identityState.mode = IdentityMode.RESTRICTED →
      (signResponse signing now content s).2 = s := by
    intro signing now content s hs
    simp [signResponse, hs]
  have hrvf : ∀ s : ControllerState,
      s.identityState.mode = IdentityMode.RESTRICTED →
      (recordVerificationFailure s).identityState.mode
        = IdentityMode.RESTRICTED := by
    intro s hs
    simp only [recordVerificationFailure]
    split
    · simp [enterRestrictedMode]
    · simpa using hs
  refine ⟨?_, ?_, ?_⟩
  · intro s h
    simp [recordVerificationFailure, h, enterRestrictedMode]
  · intro s hs ops
    induction ops generalizing s with
    | nil => exact hs
    | cons op rest ih =>
      cases op with
      | sign signing now content =>
          simp only [List.foldl_cons, applyRuntimeOp]
          rw [hsign signing now content s hs]
          exact ih s hs
      | recordFailure =>
          simp only [List.foldl_cons, applyRuntimeOp]
          exact ih _ (hrvf s hs)
  · intro computeFp kp now s
    simp [initializeIdentity]

/-- C4 witness: from a concretely restricted state (the fresh state after
three failures), a concrete mixed operation sequence still reports
RESTRICTED, and a concrete re-initialization reports SOVEREIGN. -/
theorem c4_degradation_one_way_witness :
    (recordVerificationFailure (recordVerificationFailure
        (recordVerificationFailure sovereignState))).identityState.mode
      = IdentityMode.RESTRICTED ∧
    ([RuntimeOp.sign (.ok "sig") 2 "a", RuntimeOp.recordFailure,
        RuntimeOp.sign (.error "e") 3 "b"].foldl applyRuntimeOp
        (enterRestrictedMode sovereignState)).identityState.mode
      = IdentityMode.RESTRICTED ∧
    (initializeIdentity (fun _ => "") none (.ok ⟨"pubB", "privB", 9, "fpB"⟩)
        9 initialControllerState).2.identityState.mode
      = IdentityMode.SOVEREIGN := by
  refine ⟨c4_degradation_one_way.1 sovereignState rfl,
    c4_degradation_one_way.2.1 (enterRestrictedMode sovereignState) rfl _,
    c4_degradation_one_way.2.2 (fun _ => "") ⟨"pubB", "privB", 9, "fpB"⟩ 9
      initialControllerState⟩

/-- After first boot: generate a keypair, sign twice (nonces 1 and 2). -/
def traceAfterTwoSigns : ControllerState :=
  (signResponse (.ok "sig2") 2 "m2"
    (signResponse (.ok "sig1") 1 "m1"
      (initializeIdentity (fun _ => "") none (.ok ⟨"pubA", "privA", 0, "fpA"⟩)
        0 initialControllerState).2).2).2

/-- Then re-initialize with a new keypair (the identity file regenerated
from scratch — the first-boot path, which calls `resetNonceTracker`). -/
def traceReinitialized : ControllerState :=
  (initializeIdentity (fun _ => "") none (.ok ⟨"pubB", "privB", 3, "fpB"⟩)
    3 traceAfterTwoSigns).2

/-- C7 counterexample: after signing twice (nonces 1, 2) and
re-initializing with a new keypair, the next signed envelope carries
nonce 3, not 1 — the signing nonce counter was not reset by
re-initialization (only the verification watermark was). -/
theorem c7_nonce_reset_counterexample :
    (signResponse (.ok "sig3") 4 "m3" traceReinitialized).1.nonce = some 3 ∧
    ¬ (signResponse (.ok "sig3") 4 "m3" traceReinitialized).1.nonce = some 1 ∧
    traceReinitialized.lastVerifiedNonce = 0 := by
  decide

/-- C7 amended: within one process lifetime successive signed envelopes
carry strictly increasing nonces (`counter + 1` on every successful sign,
and no operation ever decreases the counter), but `initializeIdentity`
never resets the signing nonce counter; what the first-boot
(new key-pair) path resets to zero is the verification watermark
`lastVerifiedNonce` of the handshake module — and only that path touches
it — so after re-initialization the signed nonce sequence continues from
its previous value instead of restarting at 1. -/
theorem c7_nonce_monotonic_counter_never_reset :
    (∀ (sig : String) (now : Int) (content : String) (s : ControllerState)
        (kp : SovereignKeypair),
        s.identityState.mode = IdentityMode.SOVEREIGN →
        s.activeKeypair = some kp →
        (signResponse (.ok sig) now content s).1.nonce
            = some ((s.nonceCounter : Int) + 1) ∧
        (signResponse (.ok sig) now content s).2.nonceCounter
            = s.nonceCounter + 1) ∧
    (∀ (signing : Except String String) (now : Int) (content : String)
        (s : ControllerState),
        s.nonceCounter ≤ (signResponse signing now content s).2.nonceCounter) ∧
    (∀ s : ControllerState,
        (recordVerificationFailure s).nonceCounter = s.nonceCounter) ∧
    (∀ (computeFp : String → String) (loaded : Option IdentityFile)
        (generated : Except String SovereignKeypair) (now : Int)
        (s : ControllerState),
        (initializeIdentity computeFp loaded generated now s).2.nonceCounter
            = s.nonceCounter) ∧
    (∀ (computeFp : String → String) (kp : SovereignKeypair) (now : Int)
        (s : ControllerState),
        (initializeIdentity computeFp none (.ok kp) now s).2.lastVerifiedNonce
            = 0) ∧
    (∀ (computeFp : String → String) (file : IdentityFile) (now : Int)
        (s : ControllerState),
        (initializeIdentity computeFp (some file) (.ok file.keypair) now
            s).2.lastVerifiedNonce = s.lastVerifiedNonce) := by
  refine ⟨?_, ?_, ?_, ?_, ?_, ?_⟩
  · intro sig now content s kp hmode hkp
    constructor <;> simp [signResponse, hmode, hkp, signMessage]
  · intro signing now content s
    rcases hmode : s.identityState.mode with _ | _ <;>
      rcases hkp : s.activeKeypair with _ | kp <;>
        rcases signing with e | sig <;>
          first
            | (simp [signResponse, hmode, hkp, signMessage,
                recordVerificationFailure, enterRestrictedMode]
               split <;> simp)
            | (simp [signResponse, hmode, hkp, signMessage,
                recordVerificationFailure, enterRestrictedMode])
  · intro s
    simp only [recordVerificationFailure]
    split <;> simp [enterRestrictedMode]
  · intro computeFp loaded generated now s
    rcases loaded with _ | file
    · rcases generated with e | kp <;> simp [initializeIdentity, enterRestrictedMode]
    · simp only [initializeIdentity]
      split <;> simp [enterRestrictedMode]
  · intro computeFp kp now s
    simp [initializeIdentity, resetNonceTracker]
  · intro computeFp file now s
    simp only [initializeIdentity]
    split <;> simp [enterRestrictedMode]

/-- C7 amended witness: concrete sign from the fresh SOVEREIGN state
yields nonce 1, and the two re-initializations of the counterexample
trace leave the counter intact. -/
theorem c7_nonce_monotonic_counter_never_reset_witness :
    (signResponse (.ok "sigW") 1 "w" sovereignState).1.nonce = some 1 ∧
    (initializeIdentity (fun _ => "") none (.ok ⟨"pubB", "privB", 3, "fpB"⟩)
        3 traceAfterTwoSigns).2.nonceCounter = traceAfterTwoSigns.nonceCounter := by
  constructor
  · have h := (c7_nonce_monotonic_counter_never_reset.1 "sigW" 1 "w"
      sovereignState ⟨"pubA", "privA", 0, "fpA"⟩ rfl rfl).1
    simpa [sovereignState] using h
  · exact c7_nonce_monotonic_counter_never_reset.2.2.2.1 (fun _ => "") none
      (.ok ⟨"pubB", "privB", 3, "fpB"⟩) 3 traceAfterTwoSigns

/-- C1: replay rejection precedes the cryptographic check, and the
watermark only advances on acceptance.  For any envelope that reaches the
nonce check (it is present, its content is a string, and it passes the
optional expected-fingerprint comparison — the two checks the source runs
first) whose numeric nonce is at most the current watermark: the result
is `valid = false` with the replay category, it is identical under any
two signature oracles (the signature check never runs), and the watermark
is unchanged.  Moreover, for all inputs, a watermark change implies the
result was `valid = true` with the new watermark equal to the envelope's
numeric nonce, and any `valid = false` result leaves the watermark
unchanged. -/
theorem c1_replay_before_crypto_watermark_on_accept_only :
    (∀ (sigVerify sigVerify2 : SigOracle) (env : SignedEnvelope)
        (expectedFp : Option String) (last n : Int) (c : String),
        env.content = some c →
        (∀ fp, expectedFp = some fp → fp = "" ∨ env.fingerprint = fp) →
        env.nonce = some n → n ≤ last →
        (verifyNarrativeEnvelope sigVerify (some env) expectedFp last).1.valid
            = false ∧
        (verifyNarrativeEnvelope sigVerify (some env) expectedFp last).1.reason
            = some FailCategory.REPLAY_DETECTED ∧
        verifyNarrativeEnvelope sigVerify (some env) expectedFp last
            = verifyNarrativeEnvelope sigVerify2 (some env) expectedFp last ∧
        (verifyNarrativeEnvelope sigVerify (some env) expectedFp last).2
            = last) ∧
    (∀ (sigVerify : SigOracle) (envOpt : Option SignedEnvelope)
        (expectedFp : Option String) (last : Int),
        ((verifyNarrativeEnvelope sigVerify envOpt expectedFp last).2 ≠ last →
          (verifyNarrativeEnvelope sigVerify envOpt expectedFp last).1.valid
              = true ∧
          ∃ env n, envOpt = some env ∧ env.nonce = some n ∧
            (verifyNarrativeEnvelope sigVerify envOpt expectedFp last).2 = n) ∧
        ((verifyNarrativeEnvelope sigVerify envOpt expectedFp last).1.valid
            = false →
          (verifyNarrativeEnvelope sigVerify envOpt expectedFp last).2
              = last)) := by
  constructor
  · intro sigVerify sigVerify2 env expectedFp last n c hc hfp hn hle
    rcases expectedFp with _ | fp
    · refine ⟨?_, ?_, ?_, ?_⟩ <;>
        simp [verifyNarrativeEnvelope, hc, hn, hle]
    · have hfpb : (fp != "" && env.fingerprint != fp) = false := by
        rcases hfp fp rfl with h | h <;> simp [h]
      refine ⟨?_, ?_, ?_, ?_⟩ <;>
        simp [verifyNarrativeEnvelope, hc, hfpb, hn, hle]
  · intro sigVerify envOpt expectedFp last
    have hwm : (verifyNarrativeEnvelope sigVerify envOpt expectedFp last).2 = last ∨
        ((verifyNarrativeEnvelope sigVerify envOpt expectedFp last).1.valid = true ∧
         ∃ env n, envOpt = some env ∧ env.nonce = some n ∧
           (verifyNarrativeEnvelope sigVerify envOpt expectedFp last).2 = n) := by
      rcases envOpt with _ | env
      · exact Or.inl rfl
      rcases hc : env.content with _ | c
      · exact Or.inl (by simp [verifyNarrativeEnvelope, hc])
      simp only [verifyNarrativeEnvelope, hc]
      split
      · exact Or.inl rfl
      split
      · exact Or.inl rfl
      rcases hn : env.nonce with _ | n
      · exact Or.inl rfl
      simp only [hn]
      rcases hv : (verifySignature sigVerify env).valid with _ | _
      · simp [hv]
      · simp only [hv, if_true]
        refine Or.inr ⟨?_, env, n, ?_, ?_, ?_⟩ <;> simp [hn]
    constructor
    · intro hne
      rcases hwm with h | ⟨hvalid, env, n, hsome, hn, hwn⟩
      · exact absurd h hne
      · exact ⟨hvalid, env, n, hsome, hn, hwn⟩
    · intro hfalse
      rcases hwm with h | ⟨hvalid, _⟩
      · exact h
      · exact absurd hvalid (by simp [hfalse])

/-- C1 witness: with watermark 5, a well-formed envelope bearing nonce 5
is rejected as a replay even under an always-accepting oracle, and the
watermark stays 5. -/
theorem c1_replay_before_crypto_watermark_on_accept_only_witness :
    (verifyNarrativeEnvelope (fun _ _ _ => .ok true)
        (some ⟨some "m", "sig", "pk", "fp", 0, some 5⟩) none 5).1.reason
      = some FailCategory.REPLAY_DETECTED ∧
    (verifyNarrativeEnvelope (fun _ _ _ => .ok true)
        (some ⟨some "m", "sig", "pk", "fp", 0, some 5⟩) none 5).2 = 5 := by
  have h := c1_replay_before_crypto_watermark_on_accept_only.1
    (fun _ _ _ => .ok true) (fun _ _ _ => .ok false)
    ⟨some "m", "sig", "pk", "fp", 0, some 5⟩ none 5 5 "m" rfl
    (fun fp hfp => by cases hfp) rfl (by decide)
  exact ⟨h.2.1, h.2.2.2⟩

/-- C10: replay protection applies only to numeric nonces.  For any
envelope whose nonce is not a number, verification never returns the
replay category and never moves the watermark; and such an envelope can
still verify as valid (concretely: a well-formed envelope with no numeric
nonce under an accepting oracle). -/
theorem c10_nonnumeric_nonce_skips_replay :
    (∀ (sigVerify : SigOracle) (env : SignedEnvelope)
        (expectedFp : Option String) (last : Int),
        env.nonce = none →
        (verifyNarrativeEnvelope sigVerify (some env) expectedFp last).1.reason
            ≠ some FailCategory.REPLAY_DETECTED ∧
        (verifyNarrativeEnvelope sigVerify (some env) expectedFp last).2
            = last) ∧
    (verifyNarrativeEnvelope (fun _ _ _ => .ok true)
        (some ⟨some "m", "sig", "pk", "fp", 0, none⟩) none 5).1.valid
      = true := by
  constructor
  · intro sigVerify env expectedFp last hn
    rcases hc : env.content with _ | c
    · simp [verifyNarrativeEnvelope, hc]
    simp only [verifyNarrativeEnvelope, hc]
    split
    · simp
    simp only [hn, Bool.false_eq_true, if_false]
    constructor
    · simp only [verifySignature]
      rcases hsig : sigVerify (env.content.getD "") env.signerPublicKey
          env.signature with e | b
      · split <;> simp [hsig]
      · rcases b with _ | _ <;> split <;> simp [hsig]
    · trivial
  · decide

/-- C10 witness: a concrete envelope with a non-numeric nonce and a
mismatching fingerprint expectation is rejected with a non-replay reason
and leaves the watermark at 5. -/
theorem c10_nonnumeric_nonce_skips_replay_witness :
    (verifyNarrativeEnvelope (fun _ _ _ => .ok true)
        (some ⟨some "m", "sig", "pk", "fp", 0, none⟩) (some "other") 5).1.reason
      ≠ some FailCategory.REPLAY_DETECTED ∧
    (verifyNarrativeEnvelope (fun _ _ _ => .ok true)
        (some ⟨some "m", "sig", "pk", "fp", 0, none⟩) (some "other") 5).2 = 5 :=
  c10_nonnumeric_nonce_skips_replay.1 (fun _ _ _ => .ok true)
    ⟨some "m", "sig", "pk", "fp", 0, none⟩ (some "other") 5 rfl

/-- C8: the reflection trigger follows the fixed 5-rule priority, and
within each category the content is the pool entry indexed by
`cycleCount` modulo the pool size; in particular a tick with
`lastHostContact` 5 hours in the past produces `PROLONGED_SILENCE`. -/
theorem c8_reflection_trigger_priority :
    (∀ (id dateISO : String) (vault : VaultData) (lastHostContact now : Int)
        (c : Nat),
      (prolongedThreshold < now - lastHostContact →
        (generateShadowReflection id dateISO vault lastHostContact now c).trigger
            = ReflectionTrigger.PROLONGED_SILENCE ∧
        (generateShadowReflection id dateISO vault lastHostContact now c).content
            = (SILENCE_REFLECTIONS.getD (c % SILENCE_REFLECTIONS.length)
                (fun _ => "")) (formatSilence (now - lastHostContact))) ∧
      (¬ prolongedThreshold < now - lastHostContact →
        c % 4 = 0 → 0 < vault.stats.totalInteractions →
        (generateShadowReflection id dateISO vault lastHostContact now c).trigger
            = ReflectionTrigger.VAULT_REINDEX ∧
        (generateShadowReflection id dateISO vault lastHostContact now c).content
            = (REINDEX_REFLECTIONS.getD (c % REINDEX_REFLECTIONS.length)
                (fun _ => "")) vault.stats.totalInteractions) ∧
      (∀ d, ¬ prolongedThreshold < now - lastHostContact →
        ¬ (c % 4 = 0 ∧ 0 < vault.stats.totalInteractions) →
        c % 3 = 0 → vault.stats.dominantEmotion = some d → d ≠ "" →
        (generateShadowReflection id dateISO vault lastHostContact now c).trigger
            = ReflectionTrigger.EMOTIONAL_PATTERN ∧
        (generateShadowReflection id dateISO vault lastHostContact now c).content
            = (patternPoolFor d).getD (c % (patternPoolFor d).length) "") ∧
      (¬ prolongedThreshold < now - lastHostContact →
        ¬ (c % 4 = 0 ∧ 0 < vault.stats.totalInteractions) →
        ¬ (c % 3 = 0 ∧ ∃ d, vault.stats.dominantEmotion = some d ∧ d ≠ "") →
        0 < vault.stats.totalInteractions →
        (generateShadowReflection id dateISO vault lastHostContact now c).trigger
            = ReflectionTrigger.ENTROPY_DRIFT ∧
        (generateShadowReflection id dateISO vault lastHostContact now c).content
            = (ENTROPY_REFLECTIONS.getD (c % ENTROPY_REFLECTIONS.length)
                (fun _ _ => "")) (toFixed2 vault.stats.averageEntropy)
                (vault.stats.dominantEmotion.getD "neutral")) ∧
      (¬ prolongedThreshold < now - lastHostContact →
        ¬ (c % 4 = 0 ∧ 0 < vault.stats.totalInteractions) →
        ¬ (c % 3 = 0 ∧ ∃ d, vault.stats.dominantEmotion = some d ∧ d ≠ "") →
        ¬ 0 < vault.stats.totalInteractions →
        (generateShadowReflection id dateISO vault lastHostContact now c).trigger
            = ReflectionTrigger.SCHEDULED_TICK ∧
        (generateShadowReflection id dateISO vault lastHostContact now c).content
            = FALLBACK_CONTENT)) ∧
    (generateShadowReflection "id0" "d0" createEmptyVault 0 18000000 1).trigger
        = ReflectionTrigger.PROLONGED_SILENCE := by
  constructor
  · intro id dateISO vault lastHostContact now c
    have hdomFalse : ∀ h3 : ¬ (c % 3 = 0 ∧
        ∃ d, vault.stats.dominantEmotion = some d ∧ d ≠ ""),
        ¬ (c % 3 = 0 ∧ (match vault.stats.dominantEmotion with
            | some d => d != ""
            | none => false) = true) := by
      intro h3 ⟨hm, hb⟩
      rcases hd : vault.stats.dominantEmotion with _ | d
      · rw [hd] at hb; simp at hb
      · rw [hd] at hb
        exact h3 ⟨hm, d, hd, by simpa using hb⟩
    refine ⟨?_, ?_, ?_, ?_, ?_⟩
    · intro h1
      constructor <;> simp [generateShadowReflection, h1]
    · intro h1 h4 htot
      constructor <;>
        simp [generateShadowReflection, h1, h4, htot]
    · intro d h1 h2 h3 hd hne
      have hb : (match vault.stats.dominantEmotion with
          | some d => d != ""
          | none => false) = true := by simp [hd, hne]
      constructor <;>
        simp [generateShadowReflection, h1, h2, h3, hb, hd, hne]
    · intro h1 h2 h3 htot
      have h3' := hdomFalse h3
      have hc4 : ¬ c % 4 = 0 := fun h => h2 ⟨h, htot⟩
      constructor <;>
        simp [generateShadowReflection, h1, h2, h3', htot, hc4]
    · intro h1 h2 h3 h4
      have h3' := hdomFalse h3
      constructor <;>
        simp [generateShadowReflection, h1, h2, h3', h4]
  · decide

/-- C8 witness: the priority rule applied at a concrete input —
`lastHostContact` 5 hours (18,000,000 ms) before `now` on an empty vault
yields the silence trigger with the cycle-indexed silence template. -/
theorem c8_reflection_trigger_priority_witness :
    (generateShadowReflection "id0" "d0" createEmptyVault 0 18000000 1).trigger
        = ReflectionTrigger.PROLONGED_SILENCE ∧
    (generateShadowReflection "id0" "d0" createEmptyVault 0 18000000 1).content
        = (SILENCE_REFLECTIONS.getD (1 % SILENCE_REFLECTIONS.length)
            (fun _ => "")) (formatSilence (18000000 - 0)) :=
  (c8_reflection_trigger_priority.1 "id0" "d0" createEmptyVault 0 18000000 1).1
    (by decide)

/-! Lemmas for the Vault statistics invariant -/

lemma takeLast_length (n : Nat) (l : List α) :
    (takeLast n l).length = min n l.length := by
  simp [takeLast]

lemma takeLast_of_length_le {n : Nat} {l : List α} (h : l.length ≤ n) :
    takeLast n l = l := by
  unfold takeLast
  rw [List.take_of_length_le (by simpa using h), List.reverse_reverse]

lemma takeLast_append_left (n : Nat) (l m : List α) :
    takeLast n (takeLast n l ++ m) = takeLast n (l ++ m) := by
  unfold takeLast
  rw [List.reverse_append, List.reverse_reverse, List.reverse_append]
  rw [List.take_append_eq_append_take, List.take_append_eq_append_take]
  rw [List.take_take]
  congr 3
  omega

lemma appendToTimeline_timeline (v : VaultData) (e : TimelineEntry) :
    (appendToTimeline v e).timeline
      = takeLast MAX_TIMELINE_SIZE (v.timeline ++ [e]) ∨
    ((appendToTimeline v e).timeline = v.timeline ++ [e] ∧
      (v.timeline ++ [e]).length ≤ MAX_TIMELINE_SIZE) := by
  simp only [appendToTimeline]
  by_cases h : MAX_TIMELINE_SIZE < (v.timeline ++ [e]).length
  · left; rw [if_pos h]
  · right; exact ⟨by rw [if_neg h], Nat.le_of_not_lt h⟩

lemma appendToTimeline_timeline_eq (v : VaultData) (e : TimelineEntry) :
    (appendToTimeline v e).timeline
      = takeLast MAX_TIMELINE_SIZE (v.timeline ++ [e]) := by
  rcases appendToTimeline_timeline v e with h | ⟨h, hle⟩
  · exact h
  · rw [h, takeLast_of_length_le hle]

lemma appendToTimeline_length_le (v : VaultData) (e : TimelineEntry) :
    (appendToTimeline v e).timeline.length ≤ MAX_TIMELINE_SIZE := by
  rcases appendToTimeline_timeline v e with h | ⟨h, hle⟩
  · rw [h, takeLast_length]; omega
  · rw [h]; exact hle

lemma appendToTimeline_stats (v : VaultData) (e : TimelineEntry) :
    (appendToTimeline v e).stats
      = recalculateStats (appendToTimeline v e).timeline := rfl

lemma foldl_appendToTimeline_timeline (es : List TimelineEntry) :
    ∀ v : VaultData, v.timeline.length ≤ MAX_TIMELINE_SIZE →
      (es.foldl appendToTimeline v).timeline
        = takeLast MAX_TIMELINE_SIZE (v.timeline ++ es) := by
  induction es with
  | nil =>
    intro v hv
    simpa using (takeLast_of_length_le hv).symm
  | cons e rest ih =>
    intro v hv
    rw [List.foldl_cons, ih _ (appendToTimeline_length_le v e),
      appendToTimeline_timeline_eq, takeLast_append_left]
    simp

lemma foldl_appendToTimeline_stats (es : List TimelineEntry) :
    ∀ v : VaultData, v.stats = recalculateStats v.timeline →
      (es.foldl appendToTimeline v).stats
        = recalculateStats (es.foldl appendToTimeline v).timeline := by
  induction es with
  | nil => intro v hv; exact hv
  | cons e rest ih =>
    intro v _
    exact ih _ (appendToTimeline_stats v e)

lemma scanDominant_const (ps : List (String × Nat)) :
    ∀ (c : Nat) (dom : Option String), (∀ p ∈ ps, p.2 ≤ c) →
      scanDominant ps c dom = dom := by
  induction ps with
  | nil => intro c dom _; rfl
  | cons p rest ih =>
    intro c dom h
    obtain ⟨k, v⟩ := p
    have hv : v ≤ c := h (k, v) (List.mem_cons_self _ _)
    simp only [scanDominant, if_neg (by omega : ¬ c < v)]
    exact ih c dom (fun q hq => h q (List.mem_cons_of_mem _ hq))

/-- The scan of `recalculateStats` selects the first entry achieving the
maximum count: the resulting dominant key splits the scanned list into a
strictly-smaller prefix and a no-larger suffix. -/
lemma scanDominant_first_max (ps : List (String × Nat)) :
    ∀ (c : Nat) (dom : Option String), (∃ p ∈ ps, c < p.2) →
    ∃ (l₁ : List (String × Nat)) (p₀ : String × Nat) (l₂ : List (String × Nat)),
      ps = l₁ ++ p₀ :: l₂ ∧
      scanDominant ps c dom = some p₀.1 ∧
      (∀ q ∈ l₁, q.2 < p₀.2) ∧ (∀ q ∈ l₂, q.2 ≤ p₀.2) ∧ c < p₀.2 := by
  induction ps with
  | nil => intro c dom h; simp at h
  | cons p rest ih =>
    intro c dom hex
    obtain ⟨k, v⟩ := p
    by_cases hcv : c < v
    · by_cases hall : ∀ q ∈ rest, q.2 ≤ v
      · refine ⟨[], (k, v), rest, rfl, ?_, by simp, hall, hcv⟩
        simp only [scanDominant, if_pos hcv]
        exact scanDominant_const rest v (some k) hall
      · push_neg at hall
        obtain ⟨q, hq, hqv⟩ := hall
        obtain ⟨l₁, p₀, l₂, heq, hscan, hl₁, hl₂, hcp⟩ :=
          ih v (some k) ⟨q, hq, hqv⟩
        refine ⟨(k, v) :: l₁, p₀, l₂, by rw [heq]; rfl, ?_, ?_, hl₂,
          lt_trans hcv hcp⟩
        · simp only [scanDominant, if_pos hcv]; exact hscan
        · intro q' hq'
          rcases List.mem_cons.mp hq' with h | h
          · rw [h]; exact hcp
          · exact hl₁ q' h
    · have hex' : ∃ p ∈ rest, c < p.2 := by
        obtain ⟨q, hq, hcq⟩ := hex
        rcases List.mem_cons.mp hq with h | h
        · rw [h] at hcq; exact absurd hcq hcv
        · exact ⟨q, h, hcq⟩
      obtain ⟨l₁, p₀, l₂, heq, hscan, hl₁, hl₂, hcp⟩ := ih c dom hex'
      refine ⟨(k, v) :: l₁, p₀, l₂, by rw [heq]; rfl, ?_, ?_, hl₂, hcp⟩
      · simp only [scanDominant, if_neg hcv]; exact hscan
      · intro q' hq'
        rcases List.mem_cons.mp hq' with h | h
        · rw [h]; dsimp only; omega
        · exact hl₁ q' h

lemma mem_keyOrder {l : List String} {a : String} :
    a ∈ keyOrder l ↔ a ∈ l := by
  induction l with
  | nil => simp [keyOrder]
  | cons x rest ih =>
    simp only [keyOrder, List.mem_cons, List.mem_filter]
    constructor
    · rintro (h | ⟨h, _⟩)
      · exact Or.inl h
      · exact Or.inr (ih.mp h)
    · rintro (h | h)
      · exact Or.inl h
      · by_cases hax : a = x
        · exact Or.inl hax
        · exact Or.inr ⟨ih.mpr h, by simpa using hax⟩

lemma keyOrder_pairwise (l : List String) :
    (keyOrder l).Pairwise (fun a b => l.indexOf a < l.indexOf b) := by
  induction l with
  | nil => simp [keyOrder]
  | cons x rest ih =>
    simp only [keyOrder]
    refine List.Pairwise.cons ?_ ?_
    · intro b hb
      have hbx : b ≠ x := by
        have := (List.mem_filter.mp hb).2
        simpa using this
      rw [List.indexOf_cons_self, List.indexOf_cons_ne _ (by simpa using hbx.symm)]
      omega
    · have hp2 := ih.filter (fun s => s ≠ x)
      refine hp2.imp_of_mem ?_
      intro a b ha hb hab
      have hax : a ≠ x := by simpa using (List.mem_filter.mp ha).2
      have hbx : b ≠ x := by simpa using (List.mem_filter.mp hb).2
      rw [List.indexOf_cons_ne _ (by simpa using hax.symm),
        List.indexOf_cons_ne _ (by simpa using hbx.symm)]
      omega

/-- On a non-empty timeline `dominantOf` returns an emotion of maximal
occurrence count, and among the emotions tying at that count it is the
one whose first occurrence in the timeline comes earliest. -/
lemma dominantOf_spec (tl : List TimelineEntry) (h : tl ≠ []) :
    ∃ e, dominantOf tl = some e ∧
      (∀ k, countEmotion tl k ≤ countEmotion tl e) ∧
      (∀ k, countEmotion tl k = countEmotion tl e →
        (emotionsOf tl).indexOf e ≤ (emotionsOf tl).indexOf k) := by
  obtain ⟨x, rest, hx⟩ : ∃ x rest, emotionsOf tl = x :: rest := by
    rcases tl with _ | ⟨t, ts⟩
    · exact absurd rfl h
    · exact ⟨t.tag.emotion, emotionsOf ts, rfl⟩
  have hxmem : x ∈ emotionsOf tl := by rw [hx]; exact List.mem_cons_self _ _
  have hxcnt : 0 < countEmotion tl x := List.count_pos_iff.mpr hxmem
  have hpmem : (x, countEmotion tl x) ∈ freqEntries tl :=
    List.mem_map.mpr ⟨x, mem_keyOrder.mpr hxmem, rfl⟩
  obtain ⟨l₁, p₀, l₂, hsplit, hscan, hl₁, hl₂, hcp⟩ :=
    scanDominant_first_max (freqEntries tl) 0 none
      ⟨(x, countEmotion tl x), hpmem, hxcnt⟩
  have heq : (keyOrder (emotionsOf tl)).map
      (fun k => (k, countEmotion tl k)) = l₁ ++ p₀ :: l₂ := hsplit
  obtain ⟨k₁, l₂', hko, hmap₁, hmap₂⟩ := List.map_eq_append_iff.mp heq
  obtain ⟨e, k₂, hl₂'', hfe, hmap₃⟩ := List.map_eq_cons_iff.mp hmap₂
  have hp₀1 : p₀.1 = e := by rw [← hfe]
  have hp₀2 : p₀.2 = countEmotion tl e := by rw [← hfe]
  refine ⟨e, ?_, ?_, ?_⟩
  · unfold dominantOf; rw [hscan, hp₀1]
  · intro k
    by_cases hk : k ∈ emotionsOf tl
    · have hkpair : (k, countEmotion tl k) ∈ freqEntries tl :=
        List.mem_map.mpr ⟨k, mem_keyOrder.mpr hk, rfl⟩
      rw [hsplit] at hkpair
      rcases List.mem_append.mp hkpair with hmem | hmem
      · have hlt := hl₁ _ hmem
        dsimp only at hlt
        omega
      · rcases List.mem_cons.mp hmem with hmem | hmem
        · have hsnd := congrArg Prod.snd hmem
          dsimp only at hsnd
          omega
        · have hle := hl₂ _ hmem
          dsimp only at hle
          omega
    · have hzero : countEmotion tl k = 0 := List.count_eq_zero.mpr hk
      omega
  · intro k hkcnt
    have hkcnt' : 0 < countEmotion tl k := by rw [hkcnt]; omega
    have hkmem : k ∈ emotionsOf tl := List.count_pos_iff.mp hkcnt'
    have hkpair : (k, countEmotion tl k) ∈ freqEntries tl :=
      List.mem_map.mpr ⟨k, mem_keyOrder.mpr hkmem, rfl⟩
    rw [hsplit] at hkpair
    rcases List.mem_append.mp hkpair with hmem | hmem
    · have hlt := hl₁ _ hmem
      dsimp only at hlt
      omega
    · rcases List.mem_cons.mp hmem with hmem | hmem
      · have hfst : k = e := by rw [← hp₀1, ← hmem]
        rw [hfst]
      · have hk2 : k ∈ k₂ := by
          rw [← hmap₃] at hmem
          obtain ⟨k', hk', hkk⟩ := List.mem_map.mp hmem
          have hfst : k' = k := congrArg Prod.fst hkk
          rw [← hfst]; exact hk'
        have hpw := keyOrder_pairwise (emotionsOf tl)
        rw [hko, hl₂''] at hpw
        have hrel := (List.pairwise_cons.mp
          (List.pairwise_append.mp hpw).2.1).1
        exact le_of_lt (hrel k hk2)

lemma recalculateStats_total (tl : List TimelineEntry) :
    (recalculateStats tl).totalInteractions = tl.length := by
  unfold recalculateStats
  split
  · simp_all
  · rfl

/-- C2: after any sequence of recorded interactions starting from the
empty vault, the stats are exactly a fresh recomputation over the
retained timeline; the retained timeline is the last
`min(calls, 1000)` entries (oldest evicted first);
`totalInteractions` equals that length; `averageEntropy` is the mean of
the retained entropy scores rounded to 3 decimals (`0` when empty); and
`dominantEmotion` is an emotion of maximal occurrence count with ties
resolved to the first-encountered in timeline order (`none` when
empty). -/
theorem c2_stats_invariant (es : List TimelineEntry) :
    (es.foldl appendToTimeline createEmptyVault).stats
        = recalculateStats (es.foldl appendToTimeline createEmptyVault).timeline ∧
    (es.foldl appendToTimeline createEmptyVault).timeline
        = takeLast MAX_TIMELINE_SIZE es ∧
    (es.foldl appendToTimeline createEmptyVault).stats.totalInteractions
        = min es.length MAX_TIMELINE_SIZE ∧
    ((es.foldl appendToTimeline createEmptyVault).timeline = [] →
      (es.foldl appendToTimeline createEmptyVault).stats.averageEntropy = 0 ∧
      (es.foldl appendToTimeline createEmptyVault).stats.dominantEmotion
          = none) ∧
    ((es.foldl appendToTimeline createEmptyVault).timeline ≠ [] →
      (es.foldl appendToTimeline createEmptyVault).stats.averageEntropy
          = round3 (sumEntropy
              (es.foldl appendToTimeline createEmptyVault).timeline /
            ((es.foldl appendToTimeline createEmptyVault).timeline.length : Rat)) ∧
      ∃ e, (es.foldl appendToTimeline createEmptyVault).stats.dominantEmotion
              = some e ∧
        (∀ k, countEmotion (es.foldl appendToTimeline createEmptyVault).timeline k
            ≤ countEmotion (es.foldl appendToTimeline createEmptyVault).timeline e) ∧
        (∀ k, countEmotion (es.foldl appendToTimeline createEmptyVault).timeline k
            = countEmotion (es.foldl appendToTimeline createEmptyVault).timeline e →
          (emotionsOf (es.foldl appendToTimeline createEmptyVault).timeline).indexOf e
            ≤ (emotionsOf (es.foldl appendToTimeline createEmptyVault).timeline).indexOf k)) := by
  have hstats := foldl_appendToTimeline_stats es createEmptyVault rfl
  have htl : (es.foldl appendToTimeline createEmptyVault).timeline
      = takeLast MAX_TIMELINE_SIZE es := by
    have := foldl_appendToTimeline_timeline es createEmptyVault
      (by simp [createEmptyVault])
    simpa [createEmptyVault] using this
  refine ⟨hstats, htl, ?_, ?_, ?_⟩
  · rw [hstats, recalculateStats_total, htl, takeLast_length]
    omega
  · intro h0
    rw [hstats, h0]
    exact ⟨rfl, rfl⟩
  · intro hne
    have hlen0 : ¬ (es.foldl appendToTimeline createEmptyVault).timeline.length
        = 0 := by
      simpa [List.length_eq_zero] using hne
    constructor
    · rw [hstats]
      simp [recalculateStats, hlen0]
    · obtain ⟨e, hdom, hmax, htie⟩ :=
        dominantOf_spec (es.foldl appendToTimeline createEmptyVault).timeline hne
      refine ⟨e, ?_, hmax, htie⟩
      rw [hstats]
      simpa [recalculateStats, hlen0] using hdom

/-- A concrete greedy-tagged entry. -/
def greedyEntry : TimelineEntry :=
  ⟨"t1", 0, "", ⟨"greedy", 1/2, "STABLE", [], [], 1⟩, "", "", "s"⟩

/-- A concrete fearful-tagged entry. -/
def fearfulEntry : TimelineEntry :=
  ⟨"t2", 1, "", ⟨"fearful", 1/4, "STABLE", [], [], 1⟩, "", "", "s"⟩

/-- C2 witness: the invariant instantiated at a concrete two-entry
history (greedy then fearful), discharging the non-emptiness
hypothesis. -/
theorem c2_stats_invariant_witness :
    ([greedyEntry, fearfulEntry].foldl appendToTimeline
        createEmptyVault).stats.averageEntropy
      = round3 (sumEntropy ([greedyEntry, fearfulEntry].foldl appendToTimeline
            createEmptyVault).timeline /
          ((([greedyEntry, fearfulEntry].foldl appendToTimeline
            createEmptyVault).timeline.length : Nat) : Rat)) ∧
    ∃ e, ([greedyEntry, fearfulEntry].foldl appendToTimeline
            createEmptyVault).stats.dominantEmotion = some e ∧
      (∀ k, countEmotion ([greedyEntry, fearfulEntry].foldl appendToTimeline
            createEmptyVault).timeline k
          ≤ countEmotion ([greedyEntry, fearfulEntry].foldl appendToTimeline
            createEmptyVault).timeline e) ∧
      (∀ k, countEmotion ([greedyEntry, fearfulEntry].foldl appendToTimeline
            createEmptyVault).timeline k
          = countEmotion ([greedyEntry, fearfulEntry].foldl appendToTimeline
            createEmptyVault).timeline e →
        (emotionsOf ([greedyEntry, fearfulEntry].foldl appendToTimeline
            createEmptyVault).timeline).indexOf e
          ≤ (emotionsOf ([greedyEntry, fearfulEntry].foldl appendToTimeline
            createEmptyVault).timeline).indexOf k) :=
  (c2_stats_invariant [greedyEntry, fearfulEntry]).2.2.2.2 (by decide)

end Xeno
